import Mathlib

/-!
Verification development for the wordpress-logins-finder repository.

The embedding follows the Python sources file by file:
 - utils/constants.py : Config, strip_scheme, targets_to_check
 - utils/request_manager.py : RequestManager (_fetch retry loop, make_requests
   gather, failed_requests_num accumulation, BoundedSemaphore gate)
 - logins_finder.py : RunConfig, write_results_to_file, main, the module guard

Network behaviour is abstracted as a stream of per-attempt events (what the
GET together with the body decode does on attempt i); exceptions are an
enumerated type carrying the class hierarchy facts the except clauses need.
-/

namespace WPLF

/-- Exception classes that can reach the try block of RequestManager under
one fetch, plus the classes the top-level guard of logins_finder.py sees.
The first six are the classes listed in the retry except clause of _fetch. -/
inductive PyExc where
  | clientConnectorError
  | clientResponseError
  | serverTimeoutError
  | timeoutError
  | serverDisconnectedError
  | clientOSError
  | contentTypeError
  | unicodeDecodeError
  | invalidURL
  | jsonDecodeError
  | osError
  | typeError
  | systemExit
  deriving DecidableEq

/-- The only subclass edge that changes which except clause matches:
aiohttp ContentTypeError is a subclass of ClientResponseError. Every class
is a subclass of itself. -/
def PyExc.isSubclassOf (e parent : PyExc) : Bool :=
  e == parent || (e == PyExc.contentTypeError && parent == PyExc.clientResponseError)

/-- All modelled classes except SystemExit derive from Exception; SystemExit
derives only from BaseException, so the module guard of logins_finder.py
(except Exception) does not catch it. -/
def PyExc.isExceptionClass (e : PyExc) : Bool :=
  e != PyExc.systemExit

/-- A Python value as os.environ.get can produce it: the int default, or the
raw string of the environment variable. -/
inductive PyVal where
  | int (n : Nat)
  | str (s : String)
  deriving DecidableEq

namespace Config

/-- Source: LIMIT_OF_ATTEMPTS_TO_RETRY = os.environ.get(name, 5).
When the variable is set, os.environ.get returns its raw string, despite the
int annotation in constants.py; only when unset is the value the int 5. -/
def LIMIT_OF_ATTEMPTS_TO_RETRY (env : Option String) : PyVal :=
  match env with
  | none => PyVal.int 5
  | some s => PyVal.str s

def SIMULTANEOUS_CONCURRENT_TASKS : Nat := 51

def REQUESTS_RETRIES_NUM_TO_REMOVE : Nat := 1

def ERRORS_STATUS_CODES : List Nat := [400, 403, 404, 500]

/-- Source: RESULT_FILE_NAME = os.environ.get(name, the default string). -/
def RESULT_FILE_NAME (env : Option String) : String :=
  env.getD "results.json"

end Config

/-- Source: strip_scheme in constants.py, re.sub on the anchored pattern
matching an http or https scheme at the start of the url. -/
def strip_scheme (url : String) : String :=
  if url.startsWith "https://" then url.drop 8
  else if url.startsWith "http://" then url.drop 7
  else url

/-- Source: targets_to_check in constants.py: the five literal entries, then
extend with the numbered paths for i in range(1, 1000), then append the
search endpoint built from the scheme-stripped target. -/
def targets_to_check (target : String) : List String :=
  ([target ++ "/blog/wp-json/wp/v2/users",
    target ++ "/blog/?rest_route=/wp/v2/users",
    target ++ "/wp-json/wp/v2/users",
    target ++ "/section/news?rest_route=/wp/v2/users",
    target ++ "/section/news?rest_route=/wp/v2/usErs"]
   ++ (List.range 999).map (fun i => "/wp-json/wp/v2/users/" ++ toString (i + 1)))
   ++ [target ++ "/wp-json/wp/v2/users?search=admin@" ++ strip_scheme target]

/-- What decoding the body of a completed response does: yield the decoded
JSON value (kept opaque as its text) or raise. -/
inductive BodyOutcome where
  | decoded (body : String)
  | raises (e : PyExc)
  deriving DecidableEq

/-- One attempt of the guarded block of _fetch as the network resolves it:
either session.get completes with a status (body decode then happens only on
a non-terminal status), or session.get itself raises. -/
inductive NetEvent where
  | response (status : Nat) (body : BodyOutcome)
  | getRaises (e : PyExc)
  deriving DecidableEq

/-- The populated dictionary _fetch returns on success: keys url,
status_code, body. -/
structure Outcome where
  url : String
  status_code : Nat
  body : String
  deriving DecidableEq

/-- Classes of the first except clause of _fetch, in source order. -/
def retryClasses : List PyExc :=
  [PyExc.clientConnectorError, PyExc.clientResponseError, PyExc.serverTimeoutError,
   PyExc.timeoutError, PyExc.serverDisconnectedError, PyExc.clientOSError]

/-- Classes of the second except clause of _fetch. -/
def breakClasses : List PyExc :=
  [PyExc.unicodeDecodeError, PyExc.invalidURL]

/-- An exception matches the retry except clause when it is an instance of
one of its listed classes. -/
def matchesRetryClause (e : PyExc) : Bool :=
  retryClasses.any fun c => e.isSubclassOf c

/-- An exception matches the break except clause (UnicodeDecodeError,
InvalidURL). -/
def matchesBreakClause (e : PyExc) : Bool :=
  breakClasses.any fun c => e.isSubclassOf c

/-- An exception is caught by some except clause of _fetch. -/
def excCaught (e : PyExc) : Bool :=
  matchesRetryClause e || matchesBreakClause e

/-- How one iteration of the while loop of _fetch ends. -/
inductive Step where
  | ret (out : Outcome)
  | brk
  | retry
  | raised (e : PyExc)
  deriving DecidableEq

/-- The except clauses of _fetch applied to a raised exception. In the retry
clause the handler first computes attempts as LIMIT_OF_ATTEMPTS_TO_RETRY
minus the loop counter: when the configured limit is a string (environment
variable set), that subtraction raises TypeError before the failure counter
is touched — strBudget records which case we are in. -/
def handleCaught (strBudget : Bool) (e : PyExc) : Step :=
  if matchesRetryClause e then
    if strBudget then Step.raised PyExc.typeError else Step.retry
  else if matchesBreakClause e then Step.brk
  else Step.raised e

/-- One iteration of the while body of _fetch on one network event: a
completed response with status outside ERRORS_STATUS_CODES returns the
populated dictionary after decoding the body; a terminal status falls
through the try without returning or raising, so the else clause of the try
runs and breaks; any exception goes through the except clauses. -/
def runAttempt (strBudget : Bool) (url : String) (e : NetEvent) : Step :=
  match e with
  | NetEvent.getRaises exc => handleCaught strBudget exc
  | NetEvent.response status body =>
    if status ∈ Config.ERRORS_STATUS_CODES then Step.brk
    else
      match body with
      | BodyOutcome.decoded b => Step.ret ⟨url, status, b⟩
      | BodyOutcome.raises exc => handleCaught strBudget exc

namespace RequestManager

/-- The while loop of _fetch with an int budget: arguments are the attempt
index into the event stream, left_of_attempts_to_retry, and the failure
counter accumulated so far through the failed_requests_num setter (which
adds its argument). Returns the Python value of _fetch (the populated
dictionary, or None as the implicit fall-off value, or the uncaught
exception) together with the final failure counter. -/
def fetchLoop (url : String) (ev : Nat → NetEvent) :
    Nat → Nat → Nat → Except PyExc (Option Outcome) × Nat
  | _, 0, failed => (Except.ok none, failed)
  | i, left + 1, failed =>
    match runAttempt false url (ev i) with
    | Step.ret out => (Except.ok (some out), failed)
    | Step.brk => (Except.ok none, failed)
    | Step.retry => fetchLoop url ev (i + 1) left (failed + 1)
    | Step.raised e => (Except.error e, failed)

/-- The body of _fetch. With the environment variable unset the budget is
the int 5 and the loop runs normally. With it set the budget is a string:
the while condition is string truthiness, and every branch of the body then
leaves the loop on its first execution (return, break, or raise — the retry
branch raises TypeError while computing attempts, before the failure counter
increment), so at most one event is consumed. The retry arm of the string
case is unreachable (runAttempt_true_no_retry below). -/
def fetchPy (env : Option String) (url : String) (ev : Nat → NetEvent) :
    Except PyExc (Option Outcome) × Nat :=
  match Config.LIMIT_OF_ATTEMPTS_TO_RETRY env with
  | PyVal.int n => fetchLoop url ev 0 n 0
  | PyVal.str s =>
    if s = "" then (Except.ok none, 0)
    else
      match runAttempt true url (ev 0) with
      | Step.ret out => (Except.ok (some out), 0)
      | Step.brk => (Except.ok none, 0)
      | Step.retry => (Except.ok none, 0)
      | Step.raised e => (Except.error e, 0)

/-- make_requests: asyncio.gather over one _fetch task per url, with
return_exceptions left False, so results come back one per url in argument
order (independent of completion order, per the documented gather contract)
and an uncaught exception in any task propagates to the awaiter, aborting
the collection. -/
def make_requests (env : Option String) :
    List String → (String → Nat → NetEvent) → Except PyExc (List (Option Outcome))
  | [], _ => Except.ok []
  | u :: us, net =>
    match (fetchPy env u (net u)).1 with
    | Except.error e => Except.error e
    | Except.ok o =>
      match make_requests env us net with
      | Except.error e => Except.error e
      | Except.ok outs => Except.ok (o :: outs)

/-- The total added to failed_requests_num across a scan in which every
worker runs to completion: each worker adds its own retry-failure count. -/
def failed_requests_total (env : Option String) (urls : List String)
    (net : String → Nat → NetEvent) : Nat :=
  (urls.map fun u => (fetchPy env u (net u)).2).sum

end RequestManager

/-- Source: list(filter(None, results)) in main — None outcomes are falsy
and dropped, populated dictionaries are kept. -/
def filter_none (outs : List (Option Outcome)) : List Outcome :=
  outs.filterMap id

/-- Source: the RunConfig NamedTuple of logins_finder.py. -/
structure RunConfig where
  domain : String
  verbose : Bool
  output : String
  deriving DecidableEq

/-- Source: define_config_from_cmd — builds RunConfig from the parsed
arguments, including the output option of the CLI. -/
def define_config_from_cmd (domain : String) (verbose : Bool) (output : String) : RunConfig :=
  RunConfig.mk domain verbose output

/-- Source: write_results_to_file opens Config.RESULT_FILE_NAME for writing
and dumps the results; the function receives only the results, so the path
it writes to is the environment-derived constant. Returns the pair (path
written, results written). -/
def write_results_to_file (envResultFile : Option String) (results : List Outcome) :
    String × List Outcome :=
  (Config.RESULT_FILE_NAME envResultFile, results)

/-- The persistence step of main: main calls write_results_to_file(results),
passing nothing from run_config — in particular not run_config.output. -/
def main_write (run_config : RunConfig) (envResultFile : Option String)
    (results : List Outcome) : String × List Outcome :=
  write_results_to_file envResultFile results

/-- What the module guard of logins_finder.py produces. -/
structure TopLevelResult where
  exitCode : Nat
  loggedException : Bool
  deriving DecidableEq

/-- The module guard: try asyncio.run(main()) except Exception as error:
logging.exception(...). A raising main whose exception is an Exception is
caught, logged with full context by logging.exception, and the script then
ends normally — exit status 0. A non-Exception BaseException such as the
SystemExit(2) argparse raises is not caught and ends the process with its
nonzero code. -/
def top_level_guard (mainResult : Except PyExc Unit) : TopLevelResult :=
  match mainResult with
  | Except.ok _ => TopLevelResult.mk 0 false
  | Except.error e =>
    if e.isExceptionClass then TopLevelResult.mk 0 true
    else TopLevelResult.mk 2 false

/-- A network event every part of which _fetch handles: an exception from
the GET is caught by an except clause; a completed response either has a
terminal status (no body decode happens) or its body decode yields a value
or raises a caught exception. An event outside this set makes _fetch raise. -/
def eventHandled : NetEvent → Bool
  | NetEvent.getRaises e => excCaught e
  | NetEvent.response _ (BodyOutcome.decoded _) => true
  | NetEvent.response s (BodyOutcome.raises e) =>
      decide (s ∈ Config.ERRORS_STATUS_CODES) || excCaught e

/-- State of one worker with respect to the BoundedSemaphore of
RequestManager: before the async with of _fetch, inside it (all GET attempts
of the url happen here), or after it. -/
inductive WStatus where
  | idle
  | holding
  | done
  deriving DecidableEq

/-- How many workers are inside the guarded section. -/
def countHolding : List WStatus → Nat
  | [] => 0
  | WStatus.holding :: rest => countHolding rest + 1
  | _ :: rest => countHolding rest

/-- Semaphore value plus the status of every worker. -/
structure GateState where
  avail : Nat
  workers : List WStatus
  deriving DecidableEq

/-- The transitions the async with statement of _fetch generates on the
BoundedSemaphore: acquire blocks until a slot is free then occupies it; the
aexit of the async with releases the slot on every exit path out of the
guarded section (return, break after a terminal status, exception,
cancellation). No other code touches the semaphore. -/
inductive GateStep : GateState → GateState → Prop where
  | acquire (s : GateState) (i : Nat)
      (hi : s.workers.getD i WStatus.done = WStatus.idle) (ha : 0 < s.avail) :
      GateStep s (GateState.mk (s.avail - 1) (s.workers.set i WStatus.holding))
  | release (s : GateState) (i : Nat)
      (hi : s.workers.getD i WStatus.done = WStatus.holding) :
      GateStep s (GateState.mk (s.avail + 1) (s.workers.set i WStatus.done))

/-- Initial state: asyncio.BoundedSemaphore(C) full, every one of the N
workers launched by make_requests still before its acquire. -/
def gateInit (C N : Nat) : GateState :=
  GateState.mk C (List.replicate N WStatus.idle)

/-- States a scan with capacity C and N workers can reach. -/
def GateReachable (C N : Nat) (s : GateState) : Prop :=
  Relation.ReflTransGen GateStep (gateInit C N) s

/-! ## Helper lemmas -/

/-- With a string budget the retry except clause raises TypeError, so no
iteration of the loop body ever continues the loop: the retry arm of the
string case of fetchPy is dead. -/
theorem runAttempt_true_no_retry (url : String) (e : NetEvent) :
    runAttempt true url e ≠ Step.retry := by
  cases e with
  | getRaises exc =>
    simp only [runAttempt, handleCaught]
    split
    · simp
    · split <;> simp
  | response status body =>
    simp only [runAttempt]
    split
    · simp
    · cases body with
      | decoded b => simp
      | raises exc =>
        simp only [handleCaught]
        split
        · simp
        · split <;> simp

/-- A budget of n attempts, every one of which hits the retry clause,
ends with None and adds n to the failure counter. -/
theorem fetchLoop_all_retry (url : String) (ev : Nat → NetEvent)
    (h : ∀ i, ∃ e, ev i = NetEvent.getRaises e ∧ matchesRetryClause e = true) :
    ∀ n i failed, RequestManager.fetchLoop url ev i n failed = (Except.ok none, failed + n) := by
  intro n
  induction n with
  | zero => intro i failed; simp [RequestManager.fetchLoop]
  | succ n ih =>
    intro i failed
    obtain ⟨e, he, hr⟩ := h i
    simp only [RequestManager.fetchLoop, he, runAttempt, handleCaught, hr, if_true,
      Bool.false_eq_true, if_false]
    rw [ih (i + 1) (failed + 1)]
    have harith : failed + 1 + n = failed + (n + 1) := by omega
    rw [harith]

/-- A handled event never makes the loop body raise. -/
theorem runAttempt_handled (url : String) (e : NetEvent) (h : eventHandled e = true) :
    ∀ x, runAttempt false url e ≠ Step.raised x := by
  intro x
  cases e with
  | getRaises exc =>
    simp only [eventHandled, excCaught, Bool.or_eq_true] at h
    simp only [runAttempt, handleCaught]
    rcases h with h | h
    · simp [h]
    · by_cases hr : matchesRetryClause exc = true
      · simp [hr]
      · simp [hr, h]
  | response s b =>
    cases b with
    | decoded body =>
      simp only [runAttempt]
      split
      · simp
      · simp
    | raises exc =>
      simp only [eventHandled, Bool.or_eq_true, decide_eq_true_eq] at h
      simp only [runAttempt]
      by_cases hs : s ∈ Config.ERRORS_STATUS_CODES
      · simp [hs]
      · rcases h with h | h
        · exact absurd h hs
        · simp only [if_neg hs, handleCaught]
          simp only [excCaught, Bool.or_eq_true] at h
          rcases h with h | h
          · simp [h]
          · by_cases hr : matchesRetryClause exc = true
            · simp [hr]
            · simp [hr, h]

/-- The loop of _fetch completes without an uncaught exception when every
event of the stream is handled. -/
theorem fetchLoop_handled_ok (url : String) (ev : Nat → NetEvent)
    (h : ∀ i, eventHandled (ev i) = true) :
    ∀ n i failed, ∃ o k, RequestManager.fetchLoop url ev i n failed = (Except.ok o, k) := by
  intro n
  induction n with
  | zero => intro i failed; exact ⟨none, failed, rfl⟩
  | succ n ih =>
    intro i failed
    have hne := runAttempt_handled url (ev i) (h i)
    cases hra : runAttempt false url (ev i) with
    | ret out => exact ⟨some out, failed, by simp [RequestManager.fetchLoop, hra]⟩
    | brk => exact ⟨none, failed, by simp [RequestManager.fetchLoop, hra]⟩
    | retry =>
      obtain ⟨o, k, hk⟩ := ih (i + 1) (failed + 1)
      exact ⟨o, k, by simp [RequestManager.fetchLoop, hra, hk]⟩
    | raised e => exact absurd hra (hne e)

/-- Element lookup in the middle block of a three-part concatenation whose
first block has five elements. -/
theorem list_getElem?_middle (A B C : List String) (k : Nat) (hA : A.length = 5)
    (hk : k < B.length) : ((A ++ B) ++ C)[5 + k]? = B[k]? := by
  rw [List.getElem?_append_left (by simp only [List.length_append]; omega)]
  rw [List.getElem?_append_right (by omega)]
  simp [hA]

/-- The None filter keeps at most as many entries as it receives. -/
theorem filter_none_length_le (outs : List (Option Outcome)) :
    (filter_none outs).length ≤ outs.length :=
  List.length_filterMap_le id outs

/-- The populated outcomes the None filter keeps appear in their original
order: their some-image is a sublist of the collection. -/
theorem filter_none_sublist (outs : List (Option Outcome)) :
    ((filter_none outs).map some).Sublist outs := by
  induction outs with
  | nil => simp [filter_none]
  | cons o rest ih =>
    cases o with
    | none => simpa [filter_none] using List.Sublist.cons none ih
    | some a => simpa [filter_none] using List.Sublist.cons₂ (some a) ih

/-- A gather over urls in which every fetch value is ok returns the list of
those values in input order. -/
theorem make_requests_ok_spec (urls : List String) (net : String → Nat → NetEvent)
    (outs : List (Option Outcome))
    (h : RequestManager.make_requests none urls net = Except.ok outs) :
    outs.length = urls.length ∧
    ∀ i, i < urls.length →
      (RequestManager.fetchPy none (urls.getD i "") (net (urls.getD i ""))).1 =
        Except.ok (outs.getD i none) := by
  induction urls generalizing outs with
  | nil =>
    simp only [RequestManager.make_requests] at h
    injection h with h
    subst h
    exact ⟨rfl, by intro i hi; simp at hi⟩
  | cons u us ih =>
    simp only [RequestManager.make_requests] at h
    cases hfe : (RequestManager.fetchPy none u (net u)).1 with
    | error e => rw [hfe] at h; cases h
    | ok o =>
      rw [hfe] at h
      cases hrest : RequestManager.make_requests none us net with
      | error e => rw [hrest] at h; cases h
      | ok outs2 =>
        rw [hrest] at h
        injection h with h
        subst h
        obtain ⟨ihlen, ihidx⟩ := ih outs2 hrest
        refine ⟨by simp [ihlen], ?_⟩
        intro i hi
        cases i with
        | zero => simpa using hfe
        | succ i =>
          simp only [List.getD_cons_succ]
          exact ihidx i (by simpa using hi)

/-- countHolding of the all-idle initial worker list is zero. -/
theorem countHolding_replicate_idle (n : Nat) :
    countHolding (List.replicate n WStatus.idle) = 0 := by
  induction n with
  | zero => rfl
  | succ n ih => simpa [List.replicate, countHolding] using ih

/-- Acquiring a slot moves one idle worker to holding: the holding count
rises by one. -/
theorem countHolding_set_idle_to_holding :
    ∀ (ws : List WStatus) (i : Nat), ws.getD i WStatus.done = WStatus.idle →
      countHolding (ws.set i WStatus.holding) = countHolding ws + 1 := by
  intro ws
  induction ws with
  | nil => intro i h; simp [List.getD] at h
  | cons w rest ih =>
    intro i h
    cases i with
    | zero =>
      simp only [List.getD_cons_zero] at h
      subst h
      simp [countHolding]
    | succ i =>
      simp only [List.getD_cons_succ] at h
      cases w <;> simp [countHolding, List.set_cons_succ, ih i h]

/-- Releasing a slot moves one holding worker to done: the holding count
drops by one. -/
theorem countHolding_set_holding_to_done :
    ∀ (ws : List WStatus) (i : Nat), ws.getD i WStatus.done = WStatus.holding →
      countHolding (ws.set i WStatus.done) + 1 = countHolding ws := by
  intro ws
  induction ws with
  | nil => intro i h; simp [List.getD] at h
  | cons w rest ih =>
    intro i h
    cases i with
    | zero =>
      simp only [List.getD_cons_zero] at h
      subst h
      simp [countHolding]
    | succ i =>
      simp only [List.getD_cons_succ] at h
      cases w <;> simp [countHolding, List.set_cons_succ, ← ih i h]

/-- Each semaphore transition preserves the sum of free slots and holding
workers. -/
theorem gateStep_preserves (Cap : Nat) (s t : GateState) (hstep : GateStep s t)
    (hinv : s.avail + countHolding s.workers = Cap) :
    t.avail + countHolding t.workers = Cap := by
  cases hstep with
  | acquire i hi ha =>
    have hc := countHolding_set_idle_to_holding s.workers i hi
    show s.avail - 1 + countHolding (s.workers.set i WStatus.holding) = Cap
    rw [hc]
    omega
  | release i hi =>
    have hc := countHolding_set_holding_to_done s.workers i hi
    show s.avail + 1 + countHolding (s.workers.set i WStatus.done) = Cap
    omega

/-- Invariant of every reachable state of the gate: free slots plus holding
workers equals the capacity. -/
theorem gateReachable_inv (Cap N : Nat) (s : GateState) (h : GateReachable Cap N s) :
    s.avail + countHolding s.workers = Cap := by
  induction h with
  | refl =>
    show (gateInit Cap N).avail + countHolding (gateInit Cap N).workers = Cap
    simp [gateInit, countHolding_replicate_idle]
  | tail hab hbc ih => exact gateStep_preserves Cap _ _ hbc ih

/-! ## Claim theorems -/

/-- Claim C1, amended: a probe whose every network event is of the handled
classes (the six retryable transport classes with their subclasses,
UnicodeDecodeError, InvalidURL, or a decodable body) never aborts the scan:
make_requests completes with one outcome per url. An event raising an
exception outside the handled classes, such as json.JSONDecodeError from
response.json on a non-terminal status, propagates out of _fetch and aborts
the gather (claim_C1_counterexample). -/
theorem claim_C1 (urls : List String) (net : String → Nat → NetEvent)
    (h : ∀ u i, eventHandled (net u i) = true) :
    ∃ outs, RequestManager.make_requests none urls net = Except.ok outs ∧
      outs.length = urls.length := by
  induction urls with
  | nil => exact ⟨[], rfl, rfl⟩
  | cons u us ih =>
    obtain ⟨o, k, hk⟩ := fetchLoop_handled_ok u (net u) (h u) 5 0 0
    obtain ⟨outs, houts, hlen⟩ := ih
    have h1 : (RequestManager.fetchPy none u (net u)).1 = Except.ok o := by
      show (RequestManager.fetchLoop u (net u) 0 5 0).1 = Except.ok o
      rw [hk]
    refine ⟨o :: outs, ?_, by simp [hlen]⟩
    simp [RequestManager.make_requests, h1, houts]

/-- Claim C1, refutation of the unrestricted claim: a single url whose
response body decode raises json.JSONDecodeError (status 200, so the body is
decoded; the exception matches no except clause of _fetch) makes
make_requests itself raise — the overall scan aborts on an error arising
while probing an individual URL. -/
theorem claim_C1_counterexample :
    RequestManager.make_requests none ["http://example.com/wp-json/wp/v2/users"]
      (fun _ _ => NetEvent.response 200 (BodyOutcome.raises PyExc.jsonDecodeError)) =
    Except.error PyExc.jsonDecodeError := rfl

/-- Witness for claim_C1 at a concrete two-url list whose responses are all
terminal 404s. -/
theorem claim_C1_witness :
    ∃ outs, RequestManager.make_requests none
      ["http://example.com/wp-json/wp/v2/users", "/wp-json/wp/v2/users/1"]
      (fun _ _ => NetEvent.response 404 (BodyOutcome.decoded "x")) = Except.ok outs ∧
      outs.length = 2 :=
  claim_C1 ["http://example.com/wp-json/wp/v2/users", "/wp-json/wp/v2/users/1"]
    (fun _ _ => NetEvent.response 404 (BodyOutcome.decoded "x")) (fun _ _ => rfl)

/-- Claim C2: with the environment variable unset the budget is the int 5;
a url whose every attempt raises an exception matching the retry clause
yields None and adds exactly 5 to failed_requests_num. -/
theorem claim_C2 (url : String) (ev : Nat → NetEvent)
    (h : ∀ i, ∃ e, ev i = NetEvent.getRaises e ∧ matchesRetryClause e = true) :
    RequestManager.fetchPy none url ev = (Except.ok none, 5) ∧
    Config.LIMIT_OF_ATTEMPTS_TO_RETRY none = PyVal.int 5 := by
  constructor
  · show RequestManager.fetchLoop url ev 0 5 0 = (Except.ok none, 5)
    simpa using fetchLoop_all_retry url ev h 5 0 0
  · rfl

/-- Witness for claim_C2: every attempt raises ClientConnectorError. -/
theorem claim_C2_witness :
    RequestManager.fetchPy none "http://example.com/wp-json/wp/v2/users"
      (fun _ => NetEvent.getRaises PyExc.clientConnectorError) = (Except.ok none, 5) ∧
    Config.LIMIT_OF_ATTEMPTS_TO_RETRY none = PyVal.int 5 :=
  claim_C2 "http://example.com/wp-json/wp/v2/users"
    (fun _ => NetEvent.getRaises PyExc.clientConnectorError)
    (fun _ => ⟨PyExc.clientConnectorError, rfl, rfl⟩)

/-- Claim C3: a first attempt completing with a status in
ERRORS_STATUS_CODES makes _fetch break out of the loop at once — the later
events of the stream are never consumed, the outcome is None, and the
failure counter is not incremented. -/
theorem claim_C3 (url : String) (ev : Nat → NetEvent) (status : Nat) (body : BodyOutcome)
    (hs : status ∈ Config.ERRORS_STATUS_CODES) (hev : ev 0 = NetEvent.response status body) :
    RequestManager.fetchPy none url ev = (Except.ok none, 0) := by
  have step : runAttempt false url (ev 0) = Step.brk := by
    rw [hev]
    simp only [runAttempt]
    rw [if_pos hs]
  have unfold1 : RequestManager.fetchLoop url ev 0 5 0 =
      (match runAttempt false url (ev 0) with
       | Step.ret out => (Except.ok (some out), 0)
       | Step.brk => (Except.ok none, 0)
       | Step.retry => RequestManager.fetchLoop url ev 1 4 1
       | Step.raised e => (Except.error e, 0)) := rfl
  show RequestManager.fetchLoop url ev 0 5 0 = (Except.ok none, 0)
  rw [unfold1, step]

/-- Witness for claim_C3 at a 404 response. -/
theorem claim_C3_witness :
    RequestManager.fetchPy none "http://example.com/blog/wp-json/wp/v2/users"
      (fun _ => NetEvent.response 404 (BodyOutcome.decoded "irrelevant")) =
    (Except.ok none, 0) :=
  claim_C3 "http://example.com/blog/wp-json/wp/v2/users"
    (fun _ => NetEvent.response 404 (BodyOutcome.decoded "irrelevant")) 404
    (BodyOutcome.decoded "irrelevant") (by decide) rfl

/-- Claim C4: when the gather completes, it holds one outcome per candidate
in input order (outcome i is the fetch value of url i), and the None filter
yields at most N populated outcomes whose order within the collection is
preserved (their some-image is a sublist). -/
theorem claim_C4 (urls : List String) (net : String → Nat → NetEvent)
    (outs : List (Option Outcome))
    (h : RequestManager.make_requests none urls net = Except.ok outs) :
    outs.length = urls.length ∧
    (∀ i, i < urls.length →
      (RequestManager.fetchPy none (urls.getD i "") (net (urls.getD i ""))).1 =
        Except.ok (outs.getD i none)) ∧
    (filter_none outs).length ≤ urls.length ∧
    ((filter_none outs).map some).Sublist outs := by
  obtain ⟨hlen, hidx⟩ := make_requests_ok_spec urls net outs h
  refine ⟨hlen, hidx, ?_, filter_none_sublist outs⟩
  rw [← hlen]
  exact filter_none_length_le outs

/-- Witness for claim_C4: a two-url scan with one populated and one empty
outcome (projected to the length conjunct). -/
theorem claim_C4_witness :
    ([some (Outcome.mk "http://example.com/wp-json/wp/v2/users" 200 "ok"),
      (none : Option Outcome)] : List (Option Outcome)).length =
    (["http://example.com/wp-json/wp/v2/users", "/wp-json/wp/v2/users/1"] : List String).length :=
  (claim_C4 ["http://example.com/wp-json/wp/v2/users", "/wp-json/wp/v2/users/1"]
    (fun u _ => if u = "http://example.com/wp-json/wp/v2/users"
      then NetEvent.response 200 (BodyOutcome.decoded "ok")
      else NetEvent.response 404 (BodyOutcome.decoded "x"))
    [some (Outcome.mk "http://example.com/wp-json/wp/v2/users" 200 "ok"), none] rfl).1

/-- Claim C5: in every reachable state of the semaphore gate the number of
workers inside the guarded section (where all GET attempts happen) never
exceeds the capacity, free slots plus holding workers equal the capacity
(so release on every exit path restores the slot), and the capacity the
code uses is 51. -/
theorem claim_C5 (Cap N : Nat) (hCap : 1 ≤ Cap) (s : GateState)
    (h : GateReachable Cap N s) :
    countHolding s.workers ≤ Cap ∧ s.avail + countHolding s.workers = Cap ∧
    Config.SIMULTANEOUS_CONCURRENT_TASKS = 51 := by
  have hinv := gateReachable_inv Cap N s h
  exact ⟨by omega, hinv, rfl⟩

/-- Witness for claim_C5: the state of a 3-worker scan after one acquire at
capacity 51. -/
theorem claim_C5_witness :
    countHolding (GateState.mk 50 [WStatus.holding, WStatus.idle, WStatus.idle]).workers ≤ 51 ∧
    (GateState.mk 50 [WStatus.holding, WStatus.idle, WStatus.idle]).avail +
      countHolding (GateState.mk 50 [WStatus.holding, WStatus.idle, WStatus.idle]).workers = 51 ∧
    Config.SIMULTANEOUS_CONCURRENT_TASKS = 51 :=
  claim_C5 51 3 (by omega) (GateState.mk 50 [WStatus.holding, WStatus.idle, WStatus.idle])
    (Relation.ReflTransGen.single (GateStep.acquire (gateInit 51 3) 0 rfl (by decide)))

/-- Claim C6, evaluation at the failing input: the output option of the CLI
reaches RunConfig, but the write step of main opens Config.RESULT_FILE_NAME
(results.json with the environment unset) — not the configured
custom.json. -/
theorem claim_C6 :
    (define_config_from_cmd "example.com" false "custom.json").output = "custom.json" ∧
    (main_write (define_config_from_cmd "example.com" false "custom.json") none
      [Outcome.mk "http://example.com/wp-json/wp/v2/users" 200 "decoded"]).1 =
      "results.json" ∧
    "results.json" ≠ "custom.json" :=
  ⟨rfl, rfl, by decide⟩

/-- Claim C7, amended: an uncaught exception of class Exception reaching the
module guard is logged with full context and swallowed — the process then
exits 0; only a non-Exception BaseException (argparse SystemExit) ends the
process nonzero. -/
theorem claim_C7 (e : PyExc) (h : PyExc.isExceptionClass e = true) :
    top_level_guard (Except.error e) = TopLevelResult.mk 0 true := by
  unfold top_level_guard
  simp [h]

/-- Claim C7, refutation of the exit-code part as stated: a file-write
failure (OSError escaping main) is logged, yet the exit code is 0, not
non-zero. -/
theorem claim_C7_counterexample :
    (top_level_guard (Except.error PyExc.osError)).loggedException = true ∧
    (top_level_guard (Except.error PyExc.osError)).exitCode = 0 :=
  ⟨rfl, rfl⟩

/-- Witness for claim_C7 at a JSON decode error escaping main. -/
theorem claim_C7_witness :
    top_level_guard (Except.error PyExc.jsonDecodeError) = TopLevelResult.mk 0 true :=
  claim_C7 PyExc.jsonDecodeError rfl

/-- Claim C8, evaluation at the failing input: with the environment variable
set to the string 3, the budget is the str value (not an int as annotated);
the first retryable failure then computes str minus str inside the retry
clause and raises TypeError before touching the failure counter — the
worker never terminates with the empty marker after 3 retries. With the
variable unset the default int 5 behaves as the claim says. -/
theorem claim_C8 :
    Config.LIMIT_OF_ATTEMPTS_TO_RETRY (some "3") = PyVal.str "3" ∧
    RequestManager.fetchPy (some "3") "http://example.com/wp-json/wp/v2/users"
      (fun _ => NetEvent.getRaises PyExc.clientConnectorError) =
      (Except.error PyExc.typeError, 0) ∧
    Config.LIMIT_OF_ATTEMPTS_TO_RETRY none = PyVal.int 5 ∧
    RequestManager.fetchPy none "http://example.com/wp-json/wp/v2/users"
      (fun _ => NetEvent.getRaises PyExc.clientConnectorError) = (Except.ok none, 5) :=
  ⟨rfl, rfl, rfl, rfl⟩

/-- Claim C9: targets_to_check is a pure function returning 1005 entries:
the five fixed-path variants first, then the 999 numbered endpoints as bare
paths without the target prefix, then the search-by-admin-email endpoint
from the scheme-stripped target; running it twice gives identical lists. -/
theorem claim_C9 (t : String) :
    (targets_to_check t).length = 1005 ∧
    (targets_to_check t).take 5 =
      [t ++ "/blog/wp-json/wp/v2/users",
       t ++ "/blog/?rest_route=/wp/v2/users",
       t ++ "/wp-json/wp/v2/users",
       t ++ "/section/news?rest_route=/wp/v2/users",
       t ++ "/section/news?rest_route=/wp/v2/usErs"] ∧
    (∀ k, k < 999 →
      (targets_to_check t)[5 + k]? = some ("/wp-json/wp/v2/users/" ++ toString (k + 1))) ∧
    (targets_to_check t).getLast? =
      some (t ++ "/wp-json/wp/v2/users?search=admin@" ++ strip_scheme t) ∧
    targets_to_check t = targets_to_check t := by
  refine ⟨?_, rfl, ?_, ?_, rfl⟩
  · simp [targets_to_check]
  · intro k hk
    have h999 : k < ((List.range 999).map
        (fun i => "/wp-json/wp/v2/users/" ++ toString (i + 1))).length := by
      simpa using hk
    have hmid := list_getElem?_middle
      [t ++ "/blog/wp-json/wp/v2/users",
       t ++ "/blog/?rest_route=/wp/v2/users",
       t ++ "/wp-json/wp/v2/users",
       t ++ "/section/news?rest_route=/wp/v2/users",
       t ++ "/section/news?rest_route=/wp/v2/usErs"]
      ((List.range 999).map (fun i => "/wp-json/wp/v2/users/" ++ toString (i + 1)))
      [t ++ "/wp-json/wp/v2/users?search=admin@" ++ strip_scheme t]
      k rfl h999
    unfold targets_to_check
    rw [hmid, List.getElem?_map]
    simp [List.getElem?_range, hk]
  · unfold targets_to_check
    rw [List.getLast?_concat]

/-- Claim C10: ContentTypeError is an instance of ClientResponseError, so it
matches the retry clause; the break clause matches exactly
UnicodeDecodeError and InvalidURL; a url whose every body decode raises
ContentTypeError consumes the whole default budget with the failure counter
at 5, while UnicodeDecodeError or InvalidURL end the url at once with the
counter untouched. -/
theorem claim_C10 :
    PyExc.isSubclassOf PyExc.contentTypeError PyExc.clientResponseError = true ∧
    matchesRetryClause PyExc.contentTypeError = true ∧
    (∀ e : PyExc, matchesBreakClause e = true ↔
      (e = PyExc.unicodeDecodeError ∨ e = PyExc.invalidURL)) ∧
    RequestManager.fetchPy none "http://example.com/wp-json/wp/v2/users"
      (fun _ => NetEvent.response 200 (BodyOutcome.raises PyExc.contentTypeError)) =
      (Except.ok none, 5) ∧
    RequestManager.fetchPy none "http://example.com/wp-json/wp/v2/users"
      (fun _ => NetEvent.response 200 (BodyOutcome.raises PyExc.unicodeDecodeError)) =
      (Except.ok none, 0) ∧
    RequestManager.fetchPy none "http://example.com/wp-json/wp/v2/users"
      (fun _ => NetEvent.getRaises PyExc.invalidURL) = (Except.ok none, 0) := by
  refine ⟨rfl, rfl, ?_, rfl, rfl, rfl⟩
  intro e
  cases e <;> decide

end WPLF
